import Mathlib

/-!
Verification of the RTSP camera feed viewer (Flask + OpenCV).

The development shallowly embeds the three source files:
  * `config.py`   — camera registry and quality/channel URL resolution;
  * `utils/stream_handler.py` — `MotionDetector` and `StreamHandler`
    (connection state machine, pump loop `generate_frames`);
  * `app.py`      — the `video_feed` route's handler-table logic and the
    motion status endpoint.

URLs are modelled as `List Char`; the Python string primitives used by the
source (`str.replace`, `in`, `endswith`, `rstrip`) are given faithful
executable models below.  External OpenCV capabilities (capture open/read,
background subtraction, contour extraction, JPEG encoding) are modelled as
explicit inputs / function parameters, exactly at the call boundary the
source uses them.
-/

namespace RtspViewer

/-! ## Python string primitives over `List Char` -/

/-- Fuel-indexed helper for `pyReplace`; the fuel is an upper bound on the
number of characters still to scan, making the recursion structural. -/
def pyReplaceAux (pat rep : List Char) : Nat → List Char → List Char
  | _, [] => []
  | 0, s => s
  | fuel + 1, c :: s =>
    if pat ≠ [] ∧ pat.isPrefixOf (c :: s) then
      rep ++ pyReplaceAux pat rep fuel (s.drop (pat.length - 1))
    else
      c :: pyReplaceAux pat rep fuel s

/-- Model of Python `s.replace(pat, rep)` for a non-empty pattern `pat`:
scan left to right, replacing non-overlapping occurrences. -/
def pyReplace (pat rep : List Char) (s : List Char) : List Char :=
  pyReplaceAux pat rep s.length s

/-- Model of Python `pat in s` for a non-empty pattern `pat`. -/
def pyContains (pat : List Char) : List Char → Bool
  | [] => false
  | c :: s => pat.isPrefixOf (c :: s) || pyContains pat s

/-- Model of Python `s.rstrip('/')`. -/
def rstripSlash (s : List Char) : List Char :=
  (s.reverse.dropWhile (fun c => c == '/')).reverse

/-- Model of Python `s.endswith(('554', '554/'))` from `Config.get_camera_url`. -/
def endsAt554 (s : List Char) : Bool :=
  ['5', '5', '4'].isSuffixOf s || ['5', '5', '4', '/'].isSuffixOf s

/-- The channel segment `'/ch0'`. -/
def ch0 : List Char := ['/', 'c', 'h', '0']

/-- The channel segment `'/ch1'`. -/
def ch1 : List Char := ['/', 'c', 'h', '1']

/-! ## `config.py` — camera registry and URL resolution -/

/-- One entry of `Config.CAMERAS` (`{'url': ..., 'name': ...}`). -/
structure Camera where
  url : List Char
  name : String
deriving DecidableEq, Repr

/-- Association-list lookup, modelling Python `dict` indexing / `in`. -/
def alistGet {α β : Type} [DecidableEq α] : List (α × β) → α → Option β
  | [], _ => none
  | (k, v) :: rest, key => if key = k then some v else alistGet rest key

/-- Association-list update, modelling Python `dict` assignment
(replace the existing binding, otherwise add a new one). -/
def alistSet {α β : Type} [DecidableEq α] : List (α × β) → α → β → List (α × β)
  | [], key, v => [(key, v)]
  | (k, w) :: rest, key, v =>
    if key = k then (k, v) :: rest else (k, w) :: alistSet rest key v

/-- The channel-substitution core of `Config.get_camera_url` (`config.py`
lines 68–82), applied once the camera is known and its base URL non-empty. -/
def resolveQuality (quality : String) (base_url : List Char) : List Char :=
  if quality = "sub" then
    if pyContains ch0 base_url then pyReplace ch0 ch1 base_url
    else if endsAt554 base_url then rstripSlash base_url ++ ch1
    else base_url
  else
    if pyContains ch1 base_url then pyReplace ch1 ch0 base_url
    else base_url

/-- Model of `Config.get_camera_url(camera_id, quality)` (`config.py`
lines 58–82): `None` for an unknown camera or an empty configured URL,
otherwise channel substitution on the configured base URL. -/
def get_camera_url (cameras : List (Nat × Camera)) (camera_id : Nat)
    (quality : String) : Option (List Char) :=
  match alistGet cameras camera_id with
  | none => none
  | some cam =>
    if cam.url = [] then none
    else some (resolveQuality quality cam.url)

/-! ## `stream_handler.py` — `MotionDetector`

The OpenCV primitives (`cv2.createBackgroundSubtractorMOG2`, `apply`,
thresholding, morphology, `findContours`, `contourArea`) are external
capabilities.  A background-subtraction model is represented by its
construction parameters plus the list of frames it has absorbed; the
numeric pipeline of `detect_motion` (lines 56–78 of the source, ending in
the list of external-contour areas) is a function parameter `vision`,
returning `Except` to model a raised exception inside the `try` block. -/

/-- A decoded frame: pixel data plus the annotations drawn on it
(`cv2.rectangle` bounding boxes and the `cv2.putText` motion label). -/
structure Frame where
  data : List Nat
  boxes : Nat := 0
  label : Bool := false
deriving DecidableEq, Repr

/-- State of a `cv2.createBackgroundSubtractorMOG2` instance: construction
parameters and the frames absorbed so far via `apply`. -/
structure BgModel where
  history : Nat
  varThreshold : Nat
  detectShadows : Bool
  seen : List Frame := []
deriving DecidableEq, Repr

/-- Model of `cv2.createBackgroundSubtractorMOG2(...)`: a fresh model that
has absorbed no frames. -/
def createBackgroundSubtractorMOG2 (history varThreshold : Nat)
    (detectShadows : Bool) : BgModel :=
  { history := history, varThreshold := varThreshold,
    detectShadows := detectShadows, seen := [] }

/-- The `sensitivity_map` dictionary of `MotionDetector.__init__` together
with its `.get(sensitivity, 16)` default. -/
def sensitivity_map (s : String) : Nat :=
  if s = "low" then 32
  else if s = "medium" then 16
  else if s = "high" then 8
  else 16

/-- The abstracted vision pipeline: from the current background model and a
frame to the list of external-contour areas (`cv2.contourArea` values), or
an error for an exception raised inside the pipeline. -/
abbrev Vision := BgModel → Frame → Except Unit (List Nat)

/-- State of `MotionDetector` (`stream_handler.py` lines 15–37). -/
structure MotionDetector where
  enabled : Bool
  motion_detected : Bool
  last_motion_time : ℚ
  motion_timeout : ℚ
  bg_subtractor : BgModel
  min_contour_area : Nat
deriving DecidableEq, Repr

/-- `MotionDetector.__init__(sensitivity, min_contour_area)`. -/
def MotionDetector.init (sensitivity : String) (min_contour_area : Nat) :
    MotionDetector :=
  { enabled := false
    motion_detected := false
    last_motion_time := 0
    motion_timeout := 2
    bg_subtractor :=
      createBackgroundSubtractorMOG2 500 (sensitivity_map sensitivity) true
    min_contour_area := min_contour_area }

/-- `MotionDetector.set_enabled(enabled)` (lines 106–116): when enabling,
the background model is recreated — with the hard-coded `varThreshold=16`
of the source. -/
def MotionDetector.set_enabled (md : MotionDetector) (enabled : Bool) :
    MotionDetector :=
  if enabled then
    { md with enabled := true
              bg_subtractor := createBackgroundSubtractorMOG2 500 16 true }
  else
    { md with enabled := false }

/-- `MotionDetector.detect_motion(frame)` (lines 39–104); `now` is the value
of `time.time()` during the call, `none` models a `None` frame.  Returns the
updated detector state, the returned frame and the returned boolean. -/
def MotionDetector.detect_motion (md : MotionDetector) (vision : Vision)
    (frame : Option Frame) (now : ℚ) : MotionDetector × Option Frame × Bool :=
  if md.enabled = false then (md, frame, false)
  else
    match frame with
    | none => (md, none, false)
    | some f =>
      if f.data.length = 0 then (md, some f, false)
      else
        match vision md.bg_subtractor f with
        | Except.error _ => (md, some f, false)
        | Except.ok areas =>
          let bg1 : BgModel :=
            { md.bg_subtractor with seen := md.bg_subtractor.seen ++ [f] }
          let qualifying := areas.filter (fun a => decide (md.min_contour_area < a))
          let md1 := { md with bg_subtractor := bg1 }
          let md2 :=
            if qualifying = [] then
              if md.motion_timeout < now - md.last_motion_time then
                { md1 with motion_detected := false }
              else md1
            else
              { md1 with motion_detected := true, last_motion_time := now }
          let annotated : Frame :=
            { f with boxes := f.boxes + qualifying.length
                     label := md2.motion_detected }
          (md2, some annotated, md2.motion_detected)

/-- `MotionDetector.is_motion_detected()`. -/
def MotionDetector.is_motion_detected (md : MotionDetector) : Bool :=
  md.motion_detected

/-- A run of `detect_motion` calls over timestamped frames, with a total
(error-free) vision pipeline.  For each step it records the pair
(a qualifying contour was found in this frame, the returned boolean). -/
def runDetect (visionT : BgModel → Frame → List Nat) :
    MotionDetector → List (ℚ × Frame) → MotionDetector × List (Bool × Bool)
  | md, [] => (md, [])
  | md, (t, f) :: rest =>
    let qual :=
      ((visionT md.bg_subtractor f).filter
        (fun a => decide (md.min_contour_area < a))) ≠ []
    let step := md.detect_motion (fun m fr => Except.ok (visionT m fr)) (some f) t
    let next := runDetect visionT step.1 rest
    (next.1, (decide qual, step.2.2) :: next.2)

/-! ## `stream_handler.py` — `StreamHandler` and the pump loop

`self.cap` is `none` when no `cv2.VideoCapture` object is held, and
`some b` for a capture object whose `isOpened()` returns `b`.  The pump
loop `generate_frames` is embedded as a step function on the loop state,
taking the external world's behaviour for one iteration (current time,
whether an attempted open succeeds, the outcome of `cap.read()`, whether
JPEG encoding succeeds) and emitting the observable events of that
iteration. -/

/-- Observable events of one pump-loop iteration. -/
inductive Event where
  | released
  | openAttempt (success : Bool)
  | yieldConnecting
  | yieldLost
  | yieldFrame
deriving DecidableEq, Repr

/-- State of `StreamHandler` (`stream_handler.py` lines 126–142). -/
structure StreamHandler where
  rtsp_url : List Char
  jpeg_quality : Nat
  timeout : Nat
  retry_interval : ℚ
  cap : Option Bool
  consecutive_failures : Nat
  max_failures : Nat
  motion_detector : MotionDetector
deriving DecidableEq, Repr

/-- `StreamHandler.__init__` (lines 126–142): no capture yet, failure
counter 0, threshold 3, and a motion detector built from the configured
sensitivity then switched via `set_enabled`. -/
def StreamHandler.init (rtsp_url : List Char) (jpeg_quality timeout : Nat)
    (retry_interval : ℚ) (enable_motion_detection : Bool)
    (motion_sensitivity : String) (motion_min_area : Nat) : StreamHandler :=
  { rtsp_url := rtsp_url
    jpeg_quality := jpeg_quality
    timeout := timeout
    retry_interval := retry_interval
    cap := none
    consecutive_failures := 0
    max_failures := 3
    motion_detector :=
      (MotionDetector.init motion_sensitivity motion_min_area).set_enabled
        enable_motion_detection }

/-- `StreamHandler.connect()` (lines 144–169): release any previous capture,
open a new one (success given by the environment), and reset the failure
counter only when the open succeeded. -/
def StreamHandler.connect (h : StreamHandler) (openSucceeds : Bool) :
    StreamHandler × Bool × List Event :=
  let rel : List Event := if h.cap ≠ none then [Event.released] else []
  let h1 := { h with cap := some openSucceeds }
  if openSucceeds then
    ({ h1 with consecutive_failures := 0 }, true,
      rel ++ [Event.openAttempt true])
  else
    (h1, false, rel ++ [Event.openAttempt false])

/-- `StreamHandler.set_motion_detection(enabled)` (lines 272–275). -/
def StreamHandler.set_motion_detection (h : StreamHandler) (enabled : Bool) :
    StreamHandler :=
  { h with motion_detector := h.motion_detector.set_enabled enabled }

/-- `StreamHandler.is_motion_detected()` (lines 277–279). -/
def StreamHandler.is_motion_detected (h : StreamHandler) : Bool :=
  h.motion_detector.is_motion_detected

/-- `StreamHandler.cleanup()` (lines 281–287). -/
def StreamHandler.cleanup (h : StreamHandler) : StreamHandler × List Event :=
  match h.cap with
  | none => (h, [])
  | some _ => ({ h with cap := none }, [Event.released])

/-- The loop state of `generate_frames`: the handler plus the local variable
`last_reconnect_attempt`. -/
structure PumpState where
  h : StreamHandler
  last_reconnect_attempt : ℚ
deriving DecidableEq, Repr

/-- The external world's behaviour during one pump-loop iteration:
the current time, whether `cv2.VideoCapture(url).isOpened()` would hold if
`connect` is attempted, whether `cap.read()` raises, the frame it returns
(`none` for `not success or frame is None`), and whether `cv2.imencode`
succeeds. -/
structure PumpEnv where
  now : ℚ
  openSucceeds : Bool
  readRaises : Bool
  readFrame : Option Frame
  encodeOk : Bool
deriving DecidableEq, Repr

/-- The entry state of `StreamHandler.generate_frames()`:
`last_reconnect_attempt = 0`. -/
def StreamHandler.generate_frames_start (h : StreamHandler) : PumpState :=
  { h := h, last_reconnect_attempt := 0 }

/-- One iteration of the `while True` body of `generate_frames`
(lines 185–245).  Mirrors the source exactly: a reconnect attempt governed
by the retry interval, a placeholder yield while unconnected, then the
read / failure-threshold / motion-detection / encode path. -/
def pumpStep (vision : Vision) (s : PumpState) (e : PumpEnv) :
    PumpState × List Event :=
  let h := s.h
  let recon :=
    if h.cap = some true then (h, s.last_reconnect_attempt, ([] : List Event))
    else if s.last_reconnect_attempt + h.retry_interval ≤ e.now then
      let c := h.connect e.openSucceeds
      (c.1, e.now, c.2.2)
    else (h, s.last_reconnect_attempt, [])
  let h1 := recon.1
  let lra := recon.2.1
  let ev1 := recon.2.2
  if h1.cap ≠ some true then
    ({ h := h1, last_reconnect_attempt := lra }, ev1 ++ [Event.yieldConnecting])
  else if e.readRaises then
    ({ h := { h1 with consecutive_failures := h1.consecutive_failures + 1 },
       last_reconnect_attempt := lra }, ev1)
  else
    match e.readFrame with
    | none =>
      let h2 := { h1 with consecutive_failures := h1.consecutive_failures + 1 }
      if h2.max_failures ≤ h2.consecutive_failures then
        let rel : List Event := if h2.cap ≠ none then [Event.released] else []
        ({ h := { h2 with cap := none }, last_reconnect_attempt := lra },
          ev1 ++ rel ++ [Event.yieldLost])
      else
        ({ h := h2, last_reconnect_attempt := lra }, ev1)
    | some f =>
      let h3 := { h1 with consecutive_failures := 0 }
      let step :=
        if h3.motion_detector.enabled then
          h3.motion_detector.detect_motion vision (some f) e.now
        else (h3.motion_detector, some f, false)
      let h4 := { h3 with motion_detector := step.1 }
      if e.encodeOk then
        ({ h := h4, last_reconnect_attempt := lra }, ev1 ++ [Event.yieldFrame])
      else
        ({ h := h4, last_reconnect_attempt := lra }, ev1)

/-- A run of pump-loop iterations, collecting all emitted events. -/
def pumpRun (vision : Vision) : PumpState → List PumpEnv → PumpState × List Event
  | s, [] => (s, [])
  | s, e :: es =>
    let step := pumpStep vision s e
    let next := pumpRun vision step.1 es
    (next.1, step.2 ++ next.2)

/-! ## `app.py` — the `video_feed` route and the motion status endpoint -/

/-- The configuration values `video_feed` reads from `Config`. -/
structure AppConfig where
  jpeg_quality : Nat
  stream_timeout : Nat
  retry_interval : ℚ
  motion_sensitivity : String
  motion_min_area : Nat
deriving Repr

/-- `stream_key = f"{camera_id}_{quality}"` (`app.py` line 77). -/
def streamKey (camera_id : Nat) (quality : String) : String :=
  toString camera_id ++ "_" ++ quality

/-- Outcome of one `video_feed` request: the error responses, or a streaming
response together with what happened to the handler table. -/
inductive FeedResult where
  | invalidCamera
  | invalidQuality
  | notConfigured
  | createdNew
  | recreated
  | reusedToggled
deriving DecidableEq, Repr

/-- The `StreamHandler(...)` construction of `video_feed` with the `Config`
values. -/
def newHandler (cfg : AppConfig) (rtsp_url : List Char) (enable_motion : Bool) :
    StreamHandler :=
  StreamHandler.init rtsp_url cfg.jpeg_quality cfg.stream_timeout
    cfg.retry_interval enable_motion cfg.motion_sensitivity cfg.motion_min_area

/-- The handler-table logic of `video_feed` (`app.py` lines 56–114):
validation, URL resolution, then create / recreate-on-URL-change / reuse
with a motion toggle.  (On recreation the source also calls `cleanup()` on
the retired handler before replacing it in the table.) -/
def video_feed (cfg : AppConfig) (cameras : List (Nat × Camera))
    (handlers : List (String × StreamHandler)) (camera_id : Nat)
    (quality : String) (enable_motion : Bool) :
    List (String × StreamHandler) × FeedResult :=
  if alistGet cameras camera_id = none then
    (handlers, FeedResult.invalidCamera)
  else if ¬(quality = "main" ∨ quality = "sub") then
    (handlers, FeedResult.invalidQuality)
  else
    match get_camera_url cameras camera_id quality with
    | none => (handlers, FeedResult.notConfigured)
    | some rtsp_url =>
      if rtsp_url = [] then (handlers, FeedResult.notConfigured)
      else
        let key := streamKey camera_id quality
        match alistGet handlers key with
        | none =>
          (alistSet handlers key (newHandler cfg rtsp_url enable_motion),
            FeedResult.createdNew)
        | some hdl =>
          if hdl.rtsp_url ≠ rtsp_url then
            (alistSet handlers key (newHandler cfg rtsp_url enable_motion),
              FeedResult.recreated)
          else
            (alistSet handlers key (hdl.set_motion_detection enable_motion),
              FeedResult.reusedToggled)

/-- The motion status endpoint (`app.py` lines 132–156): `none` models the
404 for an unknown camera; otherwise the reported pair
`(motion_enabled, motion_detected)`. -/
def get_motion_status (cameras : List (Nat × Camera))
    (handlers : List (String × StreamHandler)) (camera_id : Nat)
    (quality : String) : Option (Bool × Bool) :=
  if alistGet cameras camera_id = none then none
  else
    match alistGet handlers (streamKey camera_id quality) with
    | some hdl => some (hdl.motion_detector.enabled, hdl.is_motion_detected)
    | none => some (false, false)

/-! ## Lemmas about the Python string primitives -/

theorem pyReplaceAux_fuel (pat rep : List Char) :
    ∀ f₁ f₂ s, s.length ≤ f₁ → s.length ≤ f₂ →
      pyReplaceAux pat rep f₁ s = pyReplaceAux pat rep f₂ s := by
  intro f₁
  induction f₁ with
  | zero =>
    intro f₂ s h₁ _
    have hs : s = [] := List.eq_nil_of_length_eq_zero (Nat.le_zero.mp h₁)
    subst hs
    cases f₂ <;> rfl
  | succ f₁ ih =>
    intro f₂ s h₁ h₂
    cases s with
    | nil => cases f₂ <;> rfl
    | cons c t =>
      cases f₂ with
      | zero => simp at h₂
      | succ f₂ =>
        simp only [pyReplaceAux]
        by_cases h : pat ≠ [] ∧ pat.isPrefixOf (c :: t)
        · rw [if_pos h, if_pos h]
          have hd : (t.drop (pat.length - 1)).length ≤ t.length := by
            simp [List.length_drop]
          simp only [List.length_cons] at h₁ h₂
          rw [ih f₂ (t.drop (pat.length - 1)) (le_trans hd (by omega))
            (le_trans hd (by omega))]
        · rw [if_neg h, if_neg h]
          simp only [List.length_cons] at h₁ h₂
          rw [ih f₂ t (by omega) (by omega)]

theorem pyReplace_nil (pat rep : List Char) : pyReplace pat rep [] = [] := rfl

theorem pyReplace_cons_pos {pat : List Char} (rep : List Char) {c : Char}
    {s : List Char} (hne : pat ≠ []) (hp : pat.isPrefixOf (c :: s) = true) :
    pyReplace pat rep (c :: s) = rep ++ pyReplace pat rep ((c :: s).drop pat.length) := by
  have hlen : 1 ≤ pat.length := by
    cases pat with
    | nil => exact absurd rfl hne
    | cons p ps => simp
  have hdrop : (c :: s).drop pat.length = s.drop (pat.length - 1) := by
    have h1 : pat.length = (pat.length - 1) + 1 := by omega
    conv_lhs => rw [h1]
    rw [List.drop_succ_cons]
  unfold pyReplace
  simp only [List.length_cons, pyReplaceAux, if_pos (And.intro hne hp)]
  rw [hdrop]
  congr 1
  exact pyReplaceAux_fuel pat rep s.length (s.drop (pat.length - 1)).length
    (s.drop (pat.length - 1)) (by simp [List.length_drop]) le_rfl

theorem pyReplace_cons_neg {pat : List Char} (rep : List Char) {c : Char}
    {s : List Char} (h : ¬(pat ≠ [] ∧ pat.isPrefixOf (c :: s) = true)) :
    pyReplace pat rep (c :: s) = c :: pyReplace pat rep s := by
  unfold pyReplace
  simp only [List.length_cons, pyReplaceAux, if_neg h]

theorem isPrefixOf_ex {pat s : List Char} (h : pat.isPrefixOf s = true) :
    ∃ u, s = pat ++ u := by
  induction pat generalizing s with
  | nil => exact ⟨s, rfl⟩
  | cons p ps ih =>
    cases s with
    | nil => simp [List.isPrefixOf] at h
    | cons c t =>
      simp only [List.isPrefixOf, Bool.and_eq_true, beq_iff_eq] at h
      obtain ⟨u, hu⟩ := ih h.2
      exact ⟨u, by rw [h.1, hu]; rfl⟩

theorem isPrefixOf_append_self (pat u : List Char) :
    pat.isPrefixOf (pat ++ u) = true := by
  induction pat with
  | nil => simp [List.isPrefixOf]
  | cons p ps ih => simp [List.isPrefixOf, ih]

theorem pyReplace_at_match (pat rep : List Char) (u : List Char)
    (hne : pat ≠ []) :
    pyReplace pat rep (pat ++ u) = rep ++ pyReplace pat rep u := by
  cases pat with
  | nil => exact absurd rfl hne
  | cons p ps =>
    rw [List.cons_append,
      pyReplace_cons_pos rep hne
        (by rw [← List.cons_append]; exact isPrefixOf_append_self (p :: ps) u)]
    rw [← List.cons_append, List.drop_left]

theorem pyContains_tail {pat : List Char} {c : Char} {s : List Char}
    (h : pyContains pat (c :: s) = false) :
    pat.isPrefixOf (c :: s) = false ∧ pyContains pat s = false := by
  simpa [pyContains] using h

theorem pyContains_drop_left {pat : List Char} :
    ∀ (l : List Char) {s : List Char}, pyContains pat (l ++ s) = false →
      pyContains pat s = false := by
  intro l
  induction l with
  | nil => intro s h; simpa using h
  | cons c t ih =>
    intro s h
    exact ih (pyContains_tail h).2

theorem pyContains_rep_of_pyContains (pat rep : List Char) (hpat : pat ≠ [])
    (hrep : rep ≠ []) :
    ∀ s, pyContains pat s = true → pyContains rep (pyReplace pat rep s) = true := by
  have key : ∀ n s, s.length ≤ n → pyContains pat s = true →
      pyContains rep (pyReplace pat rep s) = true := by
    intro n
    induction n with
    | zero =>
      intro s hl hc
      have : s = [] := List.eq_nil_of_length_eq_zero (Nat.le_zero.mp hl)
      subst this
      simp [pyContains] at hc
    | succ n ih =>
      intro s hl hc
      cases s with
      | nil => simp [pyContains] at hc
      | cons c t =>
        by_cases hp : pat.isPrefixOf (c :: t) = true
        · rw [pyReplace_cons_pos rep hpat hp]
          cases rep with
          | nil => exact absurd rfl hrep
          | cons r rs =>
            rw [List.cons_append]
            simp only [pyContains, Bool.or_eq_true]
            left
            rw [← List.cons_append]
            exact isPrefixOf_append_self (r :: rs) _
        · rw [pyReplace_cons_neg rep (fun hand => hp hand.2)]
          simp only [pyContains, Bool.or_eq_true] at hc
          rcases hc with hc | hc
          · exact absurd hc hp
          · simp only [pyContains, Bool.or_eq_true]
            right
            simp only [List.length_cons] at hl
            exact ih t (by omega) hc
  intro s
  exact key s.length s le_rfl

theorem head_one_of_pyReplace {v : List Char}
    (h : ['1'].isPrefixOf (pyReplace ch0 ch1 v) = true) :
    ['1'].isPrefixOf v = true := by
  cases v with
  | nil => simp [pyReplace_nil, List.isPrefixOf] at h
  | cons x y =>
    by_cases hp : ch0.isPrefixOf (x :: y) = true
    · rw [pyReplace_cons_pos ch1 (by decide) hp] at h
      simp [ch1, List.isPrefixOf] at h
    · rw [pyReplace_cons_neg ch1 (fun hand => hp hand.2)] at h
      simp only [List.isPrefixOf, Bool.and_eq_true, beq_iff_eq] at h ⊢
      exact h

theorem head_h1_of_pyReplace {v : List Char}
    (h : ['h', '1'].isPrefixOf (pyReplace ch0 ch1 v) = true) :
    ['h', '1'].isPrefixOf v = true := by
  cases v with
  | nil => simp [pyReplace_nil, List.isPrefixOf] at h
  | cons x y =>
    by_cases hp : ch0.isPrefixOf (x :: y) = true
    · rw [pyReplace_cons_pos ch1 (by decide) hp] at h
      simp [ch1, List.isPrefixOf] at h
    · rw [pyReplace_cons_neg ch1 (fun hand => hp hand.2)] at h
      simp only [List.isPrefixOf, Bool.and_eq_true, beq_iff_eq] at h ⊢
      exact ⟨h.1, head_one_of_pyReplace h.2⟩

theorem head_ch1_of_pyReplace {v : List Char}
    (h : ['c', 'h', '1'].isPrefixOf (pyReplace ch0 ch1 v) = true) :
    ['c', 'h', '1'].isPrefixOf v = true := by
  cases v with
  | nil => simp [pyReplace_nil, List.isPrefixOf] at h
  | cons x y =>
    by_cases hp : ch0.isPrefixOf (x :: y) = true
    · rw [pyReplace_cons_pos ch1 (by decide) hp] at h
      simp [ch1, List.isPrefixOf] at h
    · rw [pyReplace_cons_neg ch1 (fun hand => hp hand.2)] at h
      simp only [List.isPrefixOf, Bool.and_eq_true, beq_iff_eq] at h ⊢
      exact ⟨h.1, head_h1_of_pyReplace h.2⟩

theorem pyReplace_ch_roundtrip :
    ∀ s, pyContains ch1 s = false →
      pyReplace ch1 ch0 (pyReplace ch0 ch1 s) = s := by
  have key : ∀ n s, s.length ≤ n → pyContains ch1 s = false →
      pyReplace ch1 ch0 (pyReplace ch0 ch1 s) = s := by
    intro n
    induction n with
    | zero =>
      intro s hl _
      have : s = [] := List.eq_nil_of_length_eq_zero (Nat.le_zero.mp hl)
      subst this
      rfl
    | succ n ih =>
      intro s hl hc
      cases s with
      | nil => rfl
      | cons c t =>
        by_cases hp : ch0.isPrefixOf (c :: t) = true
        · obtain ⟨u, hu⟩ := isPrefixOf_ex hp
          rw [hu] at hc ⊢
          rw [pyReplace_at_match ch0 ch1 u (by decide),
            pyReplace_at_match ch1 ch0 (pyReplace ch0 ch1 u) (by decide)]
          have hlen : u.length ≤ n := by
            have := congrArg List.length hu
            simp only [List.length_cons, List.length_append] at this
            simp only [List.length_cons] at hl
            simp [ch0] at this
            omega
          rw [ih u hlen (pyContains_drop_left ch0 hc)]
        · have hc' := pyContains_tail hc
          rw [pyReplace_cons_neg ch1 (fun hand => hp hand.2)]
          have hnp : ¬ ch1.isPrefixOf (c :: pyReplace ch0 ch1 t) = true := by
            intro habs
            simp only [ch1, List.isPrefixOf, Bool.and_eq_true, beq_iff_eq] at habs
            have : ch1.isPrefixOf (c :: t) = true := by
              simp only [ch1, List.isPrefixOf, Bool.and_eq_true, beq_iff_eq]
              exact ⟨habs.1, head_ch1_of_pyReplace habs.2⟩
            rw [hc'.1] at this
            exact Bool.false_ne_true this
          rw [pyReplace_cons_neg ch0 (fun hand => hnp hand.2)]
          simp only [List.length_cons] at hl
          rw [ih t (by omega) hc'.2]
  intro s
  exact key s.length s le_rfl

theorem pyReplace_ne_nil {pat rep : List Char} (hrep : rep ≠ []) {s : List Char}
    (hs : s ≠ []) : pyReplace pat rep s ≠ [] := by
  cases s with
  | nil => exact absurd rfl hs
  | cons c t =>
    by_cases hp : pat ≠ [] ∧ pat.isPrefixOf (c :: t) = true
    · rw [pyReplace_cons_pos rep hp.1 hp.2]
      simp [hrep]
    · rw [pyReplace_cons_neg rep hp]
      simp

theorem resolveQuality_ne_nil (quality : String) {base : List Char}
    (hb : base ≠ []) : resolveQuality quality base ≠ [] := by
  unfold resolveQuality
  by_cases hq : quality = "sub"
  · rw [if_pos hq]
    by_cases h0 : pyContains ch0 base = true
    · rw [if_pos h0]
      exact pyReplace_ne_nil (by decide) hb
    · rw [if_neg h0]
      by_cases h5 : endsAt554 base = true
      · rw [if_pos h5]
        simp [ch1]
      · rw [if_neg h5]
        exact hb
  · rw [if_neg hq]
    by_cases h1 : pyContains ch1 base = true
    · rw [if_pos h1]
      exact pyReplace_ne_nil (by decide) hb
    · rw [if_neg h1]
      exact hb

theorem get_camera_url_ne_nil {cameras : List (Nat × Camera)} {camera_id : Nat}
    {quality : String} {u : List Char}
    (h : get_camera_url cameras camera_id quality = some u) : u ≠ [] := by
  unfold get_camera_url at h
  cases hcam : alistGet cameras camera_id with
  | none => rw [hcam] at h; exact absurd h (by simp)
  | some cam =>
    rw [hcam] at h
    simp only [] at h
    by_cases hurl : cam.url = []
    · rw [if_pos hurl] at h
      exact absurd h (by simp)
    · rw [if_neg hurl] at h
      have := Option.some.inj h
      rw [← this]
      exact resolveQuality_ne_nil quality hurl

/-! ## Claim theorems: URL resolution -/

/-- C2: for a camera present in the registry, resolving quality `sub`
rewrites the `/ch0` channel segment to `/ch1`, or appends `/ch1` when the
base URL has no explicit channel and ends at the service port (`554`);
resolving quality `main` rewrites `/ch1` back to `/ch0` and otherwise
leaves the URL unchanged; an empty configured base URL resolves to `none`
(not configured) for every quality. -/
theorem get_camera_url_cases (cameras : List (Nat × Camera)) (camera_id : Nat)
    (cam : Camera) (hcam : alistGet cameras camera_id = some cam) :
    (cam.url = [] → ∀ quality, get_camera_url cameras camera_id quality = none)
    ∧ (cam.url ≠ [] →
        (pyContains ch0 cam.url = true →
          get_camera_url cameras camera_id "sub"
            = some (pyReplace ch0 ch1 cam.url))
        ∧ (pyContains ch0 cam.url = false → endsAt554 cam.url = true →
          get_camera_url cameras camera_id "sub"
            = some (rstripSlash cam.url ++ ch1))
        ∧ (pyContains ch1 cam.url = true →
          get_camera_url cameras camera_id "main"
            = some (pyReplace ch1 ch0 cam.url))
        ∧ (pyContains ch1 cam.url = false →
          get_camera_url cameras camera_id "main" = some cam.url)) := by
  constructor
  · intro hurl quality
    simp [get_camera_url, hcam, hurl]
  · intro hurl
    refine ⟨fun h0 => ?_, fun h0 h5 => ?_, fun h1 => ?_, fun h1 => ?_⟩
    · simp [get_camera_url, hcam, hurl, resolveQuality, h0]
    · simp [get_camera_url, hcam, hurl, resolveQuality, h0, h5]
    · simp [get_camera_url, hcam, hurl, resolveQuality, h1]
    · simp [get_camera_url, hcam, hurl, resolveQuality, h1]

theorem get_camera_url_cases_witness :
    get_camera_url [(1, { url := "rtsp://h/ch0".toList, name := "cam" })] 1 "sub"
      = some ("rtsp://h/ch1".toList)
    ∧ get_camera_url [(2, { url := "rtsp://h:554".toList, name := "cam" })] 2 "sub"
      = some ("rtsp://h:554/ch1".toList)
    ∧ get_camera_url [(3, { url := "rtsp://h/ch1".toList, name := "cam" })] 3 "main"
      = some ("rtsp://h/ch0".toList)
    ∧ get_camera_url [(4, { url := [], name := "cam" })] 4 "main" = none := by
  refine ⟨?_, ?_, ?_, ?_⟩
  · rw [(((get_camera_url_cases
        [(1, { url := "rtsp://h/ch0".toList, name := "cam" })] 1
        { url := "rtsp://h/ch0".toList, name := "cam" }
        (by decide)).2 (by decide)).1 (by decide))]
    decide
  · rw [(((get_camera_url_cases
        [(2, { url := "rtsp://h:554".toList, name := "cam" })] 2
        { url := "rtsp://h:554".toList, name := "cam" }
        (by decide)).2 (by decide)).2.1 (by decide) (by decide))]
    decide
  · rw [(((get_camera_url_cases
        [(3, { url := "rtsp://h/ch1".toList, name := "cam" })] 3
        { url := "rtsp://h/ch1".toList, name := "cam" }
        (by decide)).2 (by decide)).2.2.1 (by decide))]
    decide
  · exact ((get_camera_url_cases
        [(4, { url := [], name := "cam" })] 4
        { url := [], name := "cam" } (by decide)).1 rfl "main")

/-- C3 (counterexample): the main–sub–main round trip is NOT the identity
on every base URL.  For a base URL with no explicit channel that ends at
the service port, the round trip appends a channel: it yields
`rtsp://cam:554/ch0`, not the original `rtsp://cam:554`. -/
theorem resolveQuality_roundtrip_cex :
    resolveQuality "main"
        (resolveQuality "sub" (resolveQuality "main" ("rtsp://cam:554".toList)))
      = "rtsp://cam:554/ch0".toList
    ∧ resolveQuality "main"
        (resolveQuality "sub" (resolveQuality "main" ("rtsp://cam:554".toList)))
      ≠ "rtsp://cam:554".toList := by
  constructor
  · decide
  · decide

/-- C3 (amended): the main–sub–main round trip on a base URL returns the
original URL whenever the base URL contains no `/ch1` segment and either
contains a `/ch0` segment or does not end at the service port — in
particular for every configured main-channel (`…/ch0`) base URL. -/
theorem resolveQuality_roundtrip (base : List Char)
    (h1 : pyContains ch1 base = false)
    (h0 : pyContains ch0 base = true ∨ endsAt554 base = false) :
    resolveQuality "main" (resolveQuality "sub" (resolveQuality "main" base))
      = base := by
  have hm : resolveQuality "main" base = base := by
    simp [resolveQuality, h1]
  rw [hm]
  by_cases hc0 : pyContains ch0 base = true
  · have hs : resolveQuality "sub" base = pyReplace ch0 ch1 base := by
      simp [resolveQuality, hc0]
    rw [hs]
    have hcont : pyContains ch1 (pyReplace ch0 ch1 base) = true :=
      pyContains_rep_of_pyContains ch0 ch1 (by decide) (by decide) base hc0
    have : resolveQuality "main" (pyReplace ch0 ch1 base)
        = pyReplace ch1 ch0 (pyReplace ch0 ch1 base) := by
      simp [resolveQuality, hcont]
    rw [this]
    exact pyReplace_ch_roundtrip base h1
  · rcases h0 with h0 | h5
    · exact absurd h0 hc0
    · have hs : resolveQuality "sub" base = base := by
        simp [resolveQuality, hc0, h5]
      rw [hs, hm]

theorem resolveQuality_roundtrip_witness :
    resolveQuality "main"
        (resolveQuality "sub" (resolveQuality "main" ("rtsp://x/ch0".toList)))
      = "rtsp://x/ch0".toList :=
  resolveQuality_roundtrip ("rtsp://x/ch0".toList) (by decide) (Or.inl (by decide))

/-! ## Lemmas about `MotionDetector.detect_motion` -/

theorem detect_motion_disabled (md : MotionDetector) (vision : Vision)
    (frame : Option Frame) (now : ℚ) (h : md.enabled = false) :
    md.detect_motion vision frame now = (md, frame, false) := by
  unfold MotionDetector.detect_motion
  rw [if_pos h]

theorem runDetect_cons (visionT : BgModel → Frame → List Nat)
    (md : MotionDetector) (t : ℚ) (f : Frame) (rest : List (ℚ × Frame)) :
    runDetect visionT md ((t, f) :: rest)
      = ((runDetect visionT
            (md.detect_motion (fun m fr => Except.ok (visionT m fr)) (some f) t).1
            rest).1,
         (decide (((visionT md.bg_subtractor f).filter
              (fun a => decide (md.min_contour_area < a))) ≠ []),
          (md.detect_motion (fun m fr => Except.ok (visionT m fr)) (some f) t).2.2)
           :: (runDetect visionT
            (md.detect_motion (fun m fr => Except.ok (visionT m fr)) (some f) t).1
            rest).2) := rfl

theorem detect_motion_step_qual (md : MotionDetector)
    (visionT : BgModel → Frame → List Nat) (f : Frame) (now : ℚ)
    (hen : md.enabled = true) (hf : f.data ≠ [])
    (hq : (visionT md.bg_subtractor f).filter
        (fun a => decide (md.min_contour_area < a)) ≠ []) :
    (md.detect_motion (fun m fr => Except.ok (visionT m fr)) (some f) now).1.motion_detected = true
    ∧ (md.detect_motion (fun m fr => Except.ok (visionT m fr)) (some f) now).1.last_motion_time = now
    ∧ (md.detect_motion (fun m fr => Except.ok (visionT m fr)) (some f) now).1.enabled = true
    ∧ (md.detect_motion (fun m fr => Except.ok (visionT m fr)) (some f) now).1.motion_timeout = md.motion_timeout
    ∧ (md.detect_motion (fun m fr => Except.ok (visionT m fr)) (some f) now).1.min_contour_area = md.min_contour_area
    ∧ (md.detect_motion (fun m fr => Except.ok (visionT m fr)) (some f) now).2.2 = true := by
  unfold MotionDetector.detect_motion
  simp [hen, hf, hq]

theorem detect_motion_step_noqual (md : MotionDetector)
    (visionT : BgModel → Frame → List Nat) (f : Frame) (now : ℚ)
    (hen : md.enabled = true) (hf : f.data ≠ [])
    (hq : (visionT md.bg_subtractor f).filter
        (fun a => decide (md.min_contour_area < a)) = []) :
    (md.detect_motion (fun m fr => Except.ok (visionT m fr)) (some f) now).1.motion_detected
      = (if md.motion_timeout < now - md.last_motion_time then false else md.motion_detected)
    ∧ (md.detect_motion (fun m fr => Except.ok (visionT m fr)) (some f) now).1.last_motion_time = md.last_motion_time
    ∧ (md.detect_motion (fun m fr => Except.ok (visionT m fr)) (some f) now).1.enabled = true
    ∧ (md.detect_motion (fun m fr => Except.ok (visionT m fr)) (some f) now).1.motion_timeout = md.motion_timeout
    ∧ (md.detect_motion (fun m fr => Except.ok (visionT m fr)) (some f) now).1.min_contour_area = md.min_contour_area
    ∧ (md.detect_motion (fun m fr => Except.ok (visionT m fr)) (some f) now).2.2
      = (md.detect_motion (fun m fr => Except.ok (visionT m fr)) (some f) now).1.motion_detected := by
  unfold MotionDetector.detect_motion
  by_cases ht : md.motion_timeout < now - md.last_motion_time
  · simp [hen, hf, hq, ht]
  · simp [hen, hf, hq, ht]

theorem runDetect_disabled_state (visionT : BgModel → Frame → List Nat) :
    ∀ (steps : List (ℚ × Frame)) (md : MotionDetector), md.enabled = false →
      (runDetect visionT md steps).1 = md := by
  intro steps
  induction steps with
  | nil => intro md _; rfl
  | cons p rest ih =>
    intro md h
    obtain ⟨t, f⟩ := p
    rw [runDetect_cons]
    simp only [detect_motion_disabled md _ (some f) t h]
    exact ih md h

/-! ## Claim theorems: motion detector -/

/-- C5: every `set_enabled(true)` call replaces the background-subtraction
model by a fresh `createBackgroundSubtractorMOG2` model that has absorbed no
frames, so the detector state after re-enabling is independent of the
pre-enable model; consequently a frame the discarded model had seen does not
register as motion after re-enable: with the debounce window expired, the
first `detect_motion` call whose fresh-model contour areas are all below the
threshold returns `false`. -/
theorem set_enabled_true_resets_model (md : MotionDetector) :
    ((md.set_enabled true).bg_subtractor = createBackgroundSubtractorMOG2 500 16 true
      ∧ (md.set_enabled true).bg_subtractor.seen = [])
    ∧ (∀ b : BgModel,
        ({ md with bg_subtractor := b } : MotionDetector).set_enabled true
          = md.set_enabled true)
    ∧ (∀ (visionT : BgModel → Frame → List Nat) (f : Frame) (t : ℚ),
        f.data ≠ [] →
        (visionT (createBackgroundSubtractorMOG2 500 16 true) f).filter
            (fun a => decide (md.min_contour_area < a)) = [] →
        md.motion_timeout < t - md.last_motion_time →
        ((md.set_enabled true).detect_motion
            (fun m fr => Except.ok (visionT m fr)) (some f) t).2.2 = false) := by
  refine ⟨⟨?_, ?_⟩, ?_, ?_⟩
  · simp [MotionDetector.set_enabled]
  · simp [MotionDetector.set_enabled, createBackgroundSubtractorMOG2]
  · intro b
    simp [MotionDetector.set_enabled]
  · intro visionT f t hf hfresh ht
    have hen : (md.set_enabled true).enabled = true := by
      simp [MotionDetector.set_enabled]
    have hbg : (md.set_enabled true).bg_subtractor
        = createBackgroundSubtractorMOG2 500 16 true := by
      simp [MotionDetector.set_enabled]
    have hmin : (md.set_enabled true).min_contour_area = md.min_contour_area := by
      simp [MotionDetector.set_enabled]
    have hq : (visionT (md.set_enabled true).bg_subtractor f).filter
        (fun a => decide ((md.set_enabled true).min_contour_area < a)) = [] := by
      rw [hbg, hmin]
      exact hfresh
    have step := detect_motion_step_noqual (md.set_enabled true) visionT f t hen hf hq
    rw [step.2.2.2.2.2, step.1]
    have htime : (md.set_enabled true).motion_timeout
          < t - (md.set_enabled true).last_motion_time := by
      simp only [MotionDetector.set_enabled, if_pos]
      exact ht
    rw [if_pos htime]

theorem set_enabled_true_resets_model_witness :
    ((({ enabled := true, motion_detected := true, last_motion_time := 0,
          motion_timeout := 2,
          bg_subtractor := ⟨500, 16, true, [⟨[7], 0, false⟩]⟩,
          min_contour_area := 500 } : MotionDetector).set_enabled true).bg_subtractor.seen
        = [])
    ∧ ((({ enabled := true, motion_detected := true, last_motion_time := 0,
            motion_timeout := 2,
            bg_subtractor := ⟨500, 16, true, [⟨[7], 0, false⟩]⟩,
            min_contour_area := 500 } : MotionDetector).set_enabled true).detect_motion
          (fun _ _ => Except.ok (([] : List Nat)))
          (some ⟨[7], 0, false⟩) 5).2.2 = false := by
  constructor
  · exact (set_enabled_true_resets_model _).1.2
  · exact (set_enabled_true_resets_model
      { enabled := true, motion_detected := true, last_motion_time := 0,
        motion_timeout := 2,
        bg_subtractor := ⟨500, 16, true, [⟨[7], 0, false⟩]⟩,
        min_contour_area := 500 }).2.2
      (fun _ _ => []) ⟨[7], 0, false⟩ 5 (by decide) (by decide) (by norm_num)

/-- C6 (evidence of the defect): the sensitivity-to-threshold mapping
(low=32, medium=16, high=8, default 16) is honoured by the model built in
`MotionDetector.__init__`, but `set_enabled(True)` rebuilds the model with
the hard-coded `varThreshold=16`: for sensitivity `high` the model in use
after re-enabling has threshold 16, not the mapped 8 (likewise 32 becomes 16
for `low`).  So the claimed correspondence does not survive
`setEnabled(true)`. -/
theorem sensitivity_threshold_lost_on_reenable :
    sensitivity_map "low" = 32
    ∧ sensitivity_map "medium" = 16
    ∧ sensitivity_map "high" = 8
    ∧ sensitivity_map "other" = 16
    ∧ (MotionDetector.init "high" 500).bg_subtractor.varThreshold = 8
    ∧ ((MotionDetector.init "high" 500).set_enabled true).bg_subtractor.varThreshold = 16
    ∧ (MotionDetector.init "low" 500).bg_subtractor.varThreshold = 32
    ∧ ((MotionDetector.init "low" 500).set_enabled true).bg_subtractor.varThreshold = 16 := by
  refine ⟨rfl, rfl, rfl, rfl, rfl, rfl, rfl, rfl⟩

/-- C7: `detect_motion` degrades to pass-through: if the detector is
disabled, or the frame is `None`, or the frame is empty, or the vision
pipeline raises, the call returns the original input frame together with
`false`.  (The embedded `detect_motion` is a total function: the error is
absorbed, never propagated to the caller.) -/
theorem detect_motion_passthrough (md : MotionDetector) (vision : Vision)
    (frame : Option Frame) (now : ℚ)
    (h : md.enabled = false ∨ frame = none
      ∨ (∃ f, frame = some f ∧ f.data = [])
      ∨ (∃ f e, frame = some f ∧ vision md.bg_subtractor f = Except.error e)) :
    (md.detect_motion vision frame now).2 = (frame, false) := by
  rcases h with h | h | ⟨f, hfr, hf⟩ | ⟨f, e, hfr, hv⟩
  · rw [detect_motion_disabled md vision frame now h]
  · subst h
    unfold MotionDetector.detect_motion
    by_cases he : md.enabled = false
    · rw [if_pos he]
    · rw [if_neg he]
  · subst hfr
    unfold MotionDetector.detect_motion
    by_cases he : md.enabled = false
    · rw [if_pos he]
    · rw [if_neg he]
      simp [hf]
  · subst hfr
    unfold MotionDetector.detect_motion
    by_cases he : md.enabled = false
    · rw [if_pos he]
    · rw [if_neg he]
      by_cases hd : f.data.length = 0
      · simp [hd]
      · simp [hd, hv]

theorem detect_motion_passthrough_witness :
    ((({ enabled := false, motion_detected := false, last_motion_time := 0,
         motion_timeout := 2,
         bg_subtractor := createBackgroundSubtractorMOG2 500 16 true,
         min_contour_area := 500 } : MotionDetector).detect_motion
        (fun _ _ => Except.ok [600]) (some { data := [5] }) 1).2
      = (some { data := [5] }, false))
    ∧ ((({ enabled := true, motion_detected := false, last_motion_time := 0,
            motion_timeout := 2,
            bg_subtractor := createBackgroundSubtractorMOG2 500 16 true,
            min_contour_area := 500 } : MotionDetector).detect_motion
        (fun _ _ => Except.error ()) (some { data := [5] }) 1).2
      = (some { data := [5] }, false)) := by
  constructor
  · exact detect_motion_passthrough _ _ _ _ (Or.inl rfl)
  · exact detect_motion_passthrough _ _ _ _
      (Or.inr (Or.inr (Or.inr ⟨{ data := [5] }, (), rfl, rfl⟩)))

/-- C10: `set_enabled(false)` changes only the `enabled` flag —
`motion_detected` and `last_motion_time` are left as they were — and while
disabled every `detect_motion` call returns immediately without touching the
state.  Hence after disabling with the flag still set, the flag stays `true`
through an arbitrary number of further processed frames, and the motion
status query reports `(enabled = false, motion detected = true)`
indefinitely. -/
theorem motion_state_persists_while_disabled (md : MotionDetector)
    (visionT : BgModel → Frame → List Nat) (steps : List (ℚ × Frame))
    (hm : md.motion_detected = true) :
    ((md.set_enabled false).motion_detected = md.motion_detected
      ∧ (md.set_enabled false).last_motion_time = md.last_motion_time)
    ∧ (∀ (vision : Vision) (frame : Option Frame) (t : ℚ),
        (md.set_enabled false).detect_motion vision frame t
          = (md.set_enabled false, frame, false))
    ∧ (runDetect visionT (md.set_enabled false) steps).1.enabled = false
    ∧ MotionDetector.is_motion_detected
        (runDetect visionT (md.set_enabled false) steps).1 = true := by
  have hdis : (md.set_enabled false).enabled = false := by
    simp [MotionDetector.set_enabled]
  have hstate := runDetect_disabled_state visionT steps (md.set_enabled false) hdis
  refine ⟨⟨?_, ?_⟩, ?_, ?_, ?_⟩
  · simp [MotionDetector.set_enabled]
  · simp [MotionDetector.set_enabled]
  · intro vision frame t
    exact detect_motion_disabled _ vision frame t hdis
  · rw [hstate]
    exact hdis
  · rw [hstate]
    simp [MotionDetector.is_motion_detected, MotionDetector.set_enabled, hm]

theorem motion_state_persists_while_disabled_witness :
    MotionDetector.is_motion_detected
      (runDetect (fun _ _ => [600])
        (({ enabled := true, motion_detected := true, last_motion_time := 0,
            motion_timeout := 2,
            bg_subtractor := createBackgroundSubtractorMOG2 500 16 true,
            min_contour_area := 500 } : MotionDetector).set_enabled false)
        [(10, { data := [1] }), (1000, { data := [2] })]).1 = true :=
  (motion_state_persists_while_disabled
    { enabled := true, motion_detected := true, last_motion_time := 0,
      motion_timeout := 2,
      bg_subtractor := createBackgroundSubtractorMOG2 500 16 true,
      min_contour_area := 500 }
    (fun _ _ => [600])
    [(10, { data := [1] }), (1000, { data := [2] })] rfl).2.2.2

/-! ## Lemmas about the handler table -/

theorem alistGet_alistSet_ne {α β : Type} [DecidableEq α] :
    ∀ (l : List (α × β)) (k k2 : α) (v : β), k2 ≠ k →
      alistGet (alistSet l k v) k2 = alistGet l k2 := by
  intro l
  induction l with
  | nil =>
    intro k k2 v hne
    simp [alistGet, alistSet, hne]
  | cons p rest ih =>
    intro k k2 v hne
    obtain ⟨a, b⟩ := p
    by_cases hk : k = a
    · subst hk
      simp [alistSet, alistGet, hne]
    · simp only [alistSet, if_neg hk]
      by_cases hk2 : k2 = a
      · simp [alistGet, hk2]
      · simp [alistGet, hk2, ih k k2 v hne]

/-! ## Claim theorems: `video_feed` handler-table behaviour -/

/-- C9: for a camera id not present in the loaded registry, `video_feed`
returns the not-found error for that request — whatever the quality and
motion parameter — and the handler table is left exactly as it was: no
`StreamHandler` is created or stored under any key. -/
theorem video_feed_unknown_camera (cfg : AppConfig)
    (cameras : List (Nat × Camera)) (handlers : List (String × StreamHandler))
    (camera_id : Nat) (quality : String) (enable_motion : Bool)
    (h : alistGet cameras camera_id = none) :
    video_feed cfg cameras handlers camera_id quality enable_motion
      = (handlers, FeedResult.invalidCamera) := by
  unfold video_feed
  rw [if_pos h]

theorem video_feed_unknown_camera_witness :
    video_feed
      { jpeg_quality := 80, stream_timeout := 10, retry_interval := 5,
        motion_sensitivity := "medium", motion_min_area := 500 }
      [(1, { url := "rtsp://h/ch0".toList, name := "cam" })]
      [] 9 "sub" true
      = ([], FeedResult.invalidCamera) :=
  video_feed_unknown_camera _ _ _ 9 "sub" true (by decide)

/-- C4: when the stream key is present in the handler table and the stored
handler's captured URL matches the freshly resolved URL, a request with any
motion flag reuses that handler: the table afterwards holds
`set_motion_detection` applied to the existing handler (no new handler is
constructed), whose `rtsp_url`, `cap` (so no release or reopen of the
capture), failure counter and retry interval are unchanged — only the
motion detector differs — and every other key of the table is untouched. -/
theorem video_feed_toggle_reuses_handler (cfg : AppConfig)
    (cameras : List (Nat × Camera)) (handlers : List (String × StreamHandler))
    (camera_id : Nat) (quality : String) (enable_motion : Bool)
    (hdl : StreamHandler) (u : List Char)
    (hq : quality = "main" ∨ quality = "sub")
    (hurl : get_camera_url cameras camera_id quality = some u)
    (hh : alistGet handlers (streamKey camera_id quality) = some hdl)
    (hmatch : hdl.rtsp_url = u) :
    video_feed cfg cameras handlers camera_id quality enable_motion
      = (alistSet handlers (streamKey camera_id quality)
          (hdl.set_motion_detection enable_motion), FeedResult.reusedToggled)
    ∧ (hdl.set_motion_detection enable_motion).rtsp_url = hdl.rtsp_url
    ∧ (hdl.set_motion_detection enable_motion).cap = hdl.cap
    ∧ (hdl.set_motion_detection enable_motion).consecutive_failures
        = hdl.consecutive_failures
    ∧ (hdl.set_motion_detection enable_motion).retry_interval = hdl.retry_interval
    ∧ (∀ k, k ≠ streamKey camera_id quality →
        alistGet (alistSet handlers (streamKey camera_id quality)
          (hdl.set_motion_detection enable_motion)) k = alistGet handlers k) := by
  have hcam : alistGet cameras camera_id ≠ none := by
    intro habs
    unfold get_camera_url at hurl
    rw [habs] at hurl
    exact absurd hurl (by simp)
  have hne : u ≠ [] := get_camera_url_ne_nil hurl
  refine ⟨?_, ?_, ?_, ?_, ?_, ?_⟩
  · unfold video_feed
    rw [if_neg hcam]
    have hqv : ¬¬(quality = "main" ∨ quality = "sub") := not_not_intro hq
    rw [if_neg hqv]
    rw [hurl]
    simp only []
    rw [if_neg hne, hh]
    simp only []
    rw [if_neg (not_not_intro hmatch)]
  · simp [StreamHandler.set_motion_detection]
  · simp [StreamHandler.set_motion_detection]
  · simp [StreamHandler.set_motion_detection]
  · simp [StreamHandler.set_motion_detection]
  · intro k hk
    exact alistGet_alistSet_ne handlers (streamKey camera_id quality) k
      (hdl.set_motion_detection enable_motion) hk

theorem video_feed_toggle_reuses_handler_witness :
    video_feed
        { jpeg_quality := 80, stream_timeout := 10, retry_interval := 5,
          motion_sensitivity := "medium", motion_min_area := 500 }
        [(1, { url := "rtsp://h/ch0".toList, name := "cam" })]
        [("1_main",
          StreamHandler.init ("rtsp://h/ch0".toList) 80 10 5 false "medium" 500)]
        1 "main" true
      = ([("1_main",
            (StreamHandler.init ("rtsp://h/ch0".toList) 80 10 5 false "medium"
              500).set_motion_detection true)],
         FeedResult.reusedToggled)
    ∧ ((StreamHandler.init ("rtsp://h/ch0".toList) 80 10 5 false "medium"
          500).set_motion_detection true).cap
        = (StreamHandler.init ("rtsp://h/ch0".toList) 80 10 5 false "medium"
            500).cap := by
  have h := video_feed_toggle_reuses_handler
    { jpeg_quality := 80, stream_timeout := 10, retry_interval := 5,
      motion_sensitivity := "medium", motion_min_area := 500 }
    [(1, { url := "rtsp://h/ch0".toList, name := "cam" })]
    [("1_main",
      StreamHandler.init ("rtsp://h/ch0".toList) 80 10 5 false "medium" 500)]
    1 "main" true
    (StreamHandler.init ("rtsp://h/ch0".toList) 80 10 5 false "medium" 500)
    ("rtsp://h/ch0".toList)
    (Or.inl rfl) (by decide) (by decide) (by decide)
  exact ⟨h.1, h.2.2.1⟩

/-! ## Lemmas about the pump loop -/

theorem pumpStep_read_fail_low (vision : Vision) (s : PumpState) (e : PumpEnv)
    (hcap : s.h.cap = some true) (hr : e.readRaises = false)
    (hf : e.readFrame = none)
    (hlow : s.h.consecutive_failures + 1 < s.h.max_failures) :
    pumpStep vision s e
      = ({ h := { s.h with consecutive_failures := s.h.consecutive_failures + 1 },
           last_reconnect_attempt := s.last_reconnect_attempt }, []) := by
  have hn : ¬ s.h.max_failures ≤ s.h.consecutive_failures + 1 := by omega
  unfold pumpStep
  simp [hcap, hr, hf, hn]

theorem pumpStep_read_fail_trip (vision : Vision) (s : PumpState) (e : PumpEnv)
    (hcap : s.h.cap = some true) (hr : e.readRaises = false)
    (hf : e.readFrame = none)
    (htrip : s.h.max_failures ≤ s.h.consecutive_failures + 1) :
    pumpStep vision s e
      = ({ h := { s.h with consecutive_failures := s.h.consecutive_failures + 1,
                           cap := none },
           last_reconnect_attempt := s.last_reconnect_attempt },
         [Event.released, Event.yieldLost]) := by
  unfold pumpStep
  simp [hcap, hr, hf, htrip]

theorem pumpStep_wait (vision : Vision) (s : PumpState) (e : PumpEnv)
    (hcap : s.h.cap = none)
    (hw : e.now < s.last_reconnect_attempt + s.h.retry_interval) :
    pumpStep vision s e = (s, [Event.yieldConnecting]) := by
  have hn : ¬ (s.last_reconnect_attempt + s.h.retry_interval ≤ e.now) :=
    not_le.mpr hw
  unfold pumpStep
  simp [hcap, hn]

theorem pumpStep_reconnect_read_ok (vision : Vision) (s : PumpState)
    (e : PumpEnv) (f : Frame)
    (hcap : s.h.cap = none)
    (hw : s.last_reconnect_attempt + s.h.retry_interval ≤ e.now)
    (ho : e.openSucceeds = true) (hr : e.readRaises = false)
    (hf : e.readFrame = some f) (he : e.encodeOk = true) :
    (pumpStep vision s e).2 = [Event.openAttempt true, Event.yieldFrame]
    ∧ (pumpStep vision s e).1.h.consecutive_failures = 0
    ∧ (pumpStep vision s e).1.h.cap = some true
    ∧ (pumpStep vision s e).1.last_reconnect_attempt = e.now := by
  unfold pumpStep StreamHandler.connect
  by_cases hen : s.h.motion_detector.enabled <;>
    simp [hcap, hw, ho, hr, hf, he, hen]

theorem pumpStep_read_ok_resets (vision : Vision) (s : PumpState) (e : PumpEnv)
    (fr : Frame) (hcap : s.h.cap = some true) (hr : e.readRaises = false)
    (hf : e.readFrame = some fr) :
    (pumpStep vision s e).1.h.consecutive_failures = 0 := by
  unfold pumpStep
  by_cases hen : s.h.motion_detector.enabled <;> by_cases he : e.encodeOk <;>
    simp [hcap, hr, hf, hen, he]

theorem pumpRun_append (vision : Vision) :
    ∀ (l1 l2 : List PumpEnv) (s : PumpState),
      pumpRun vision s (l1 ++ l2)
        = ((pumpRun vision (pumpRun vision s l1).1 l2).1,
           (pumpRun vision s l1).2
             ++ (pumpRun vision (pumpRun vision s l1).1 l2).2) := by
  intro l1
  induction l1 with
  | nil => intro l2 s; simp [pumpRun]
  | cons e es ih =>
    intro l2 s
    simp only [List.cons_append, pumpRun, List.append_eq]
    rw [ih l2 (pumpStep vision s e).1]
    simp [List.append_assoc]

theorem pumpRun_waiting (vision : Vision) :
    ∀ (ws : List PumpEnv) (s : PumpState), s.h.cap = none →
      (∀ w ∈ ws, w.now < s.last_reconnect_attempt + s.h.retry_interval) →
      pumpRun vision s ws = (s, ws.map (fun _ => Event.yieldConnecting)) := by
  intro ws
  induction ws with
  | nil => intro s _ _; rfl
  | cons w rest ih =>
    intro s hcap hws
    simp only [pumpRun]
    rw [pumpStep_wait vision s w hcap (hws w (by simp))]
    rw [ih s hcap (fun x hx => hws x (by simp [hx]))]
    rfl

/-! ## Claim theorems: pump-loop failure threshold -/

/-- C1 (counterexample): the consecutive-failure counter is NOT reset at the
forced Connected→Disconnected transition.  From a connected handler with
counter 0 and threshold 3, after exactly three consecutive read failures the
capture has been released (`cap = none`, the Disconnected state) but the
counter still holds 3 — the code resets it only on the next successful
`connect` (or on a successful read), not at that transition. -/
theorem pump_counter_not_reset_at_transition_cex :
    (pumpRun (fun _ _ => Except.ok [])
        { h := { rtsp_url := "u".toList, jpeg_quality := 80, timeout := 10,
                  retry_interval := 5, cap := some true,
                  consecutive_failures := 0, max_failures := 3,
                  motion_detector := MotionDetector.init "medium" 500 },
          last_reconnect_attempt := 0 }
        [⟨100, false, false, none, true⟩, ⟨100, false, false, none, true⟩,
          ⟨100, false, false, none, true⟩]).1.h.cap = none
    ∧ (pumpRun (fun _ _ => Except.ok [])
        { h := { rtsp_url := "u".toList, jpeg_quality := 80, timeout := 10,
                  retry_interval := 5, cap := some true,
                  consecutive_failures := 0, max_failures := 3,
                  motion_detector := MotionDetector.init "medium" 500 },
          last_reconnect_attempt := 0 }
        [⟨100, false, false, none, true⟩, ⟨100, false, false, none, true⟩,
          ⟨100, false, false, none, true⟩]).1.h.consecutive_failures = 3
    ∧ (3 : Nat) ≠ 0 := by
  refine ⟨by decide, by decide, by decide⟩

/-- C1 (amended): from a Connected handler with failure counter 0 and
threshold `max_failures = 3`, three consecutive read failures release the
capture exactly once and transition the source to Disconnected exactly once
before the next open attempt: the run's events are exactly one `released`
followed by the "Connection lost" placeholder, then only "Connecting…"
placeholders while the retry interval has not elapsed, then the single open
attempt.  The counter is NOT reset at that transition — it retains the
value 3 — and is reset to 0 by the next successful open; independently, any
successful read from a Connected state resets the counter to 0. -/
theorem pump_threshold_release_amended (vision : Vision) (h : StreamHandler)
    (t0 : ℚ) (f1 f2 f3 : PumpEnv) (ws : List PumpEnv) (o : PumpEnv) (fr : Frame)
    (hcap : h.cap = some true) (hfail : h.consecutive_failures = 0)
    (hmax : h.max_failures = 3)
    (h1r : f1.readRaises = false) (h1f : f1.readFrame = none)
    (h2r : f2.readRaises = false) (h2f : f2.readFrame = none)
    (h3r : f3.readRaises = false) (h3f : f3.readFrame = none)
    (hws : ∀ w ∈ ws, w.now < t0 + h.retry_interval)
    (how : t0 + h.retry_interval ≤ o.now) (hoo : o.openSucceeds = true)
    (hor : o.readRaises = false) (hof : o.readFrame = some fr)
    (hoe : o.encodeOk = true) :
    (pumpRun vision ⟨h, t0⟩ ([f1, f2, f3] ++ ws ++ [o])).2
      = [Event.released, Event.yieldLost]
        ++ ws.map (fun _ => Event.yieldConnecting)
        ++ [Event.openAttempt true, Event.yieldFrame]
    ∧ (pumpRun vision ⟨h, t0⟩ [f1, f2]).1.h.cap = some true
    ∧ (pumpRun vision ⟨h, t0⟩ [f1, f2, f3]).1.h.cap = none
    ∧ (pumpRun vision ⟨h, t0⟩ [f1, f2, f3]).1.h.consecutive_failures = 3
    ∧ (pumpRun vision ⟨h, t0⟩ ([f1, f2, f3] ++ ws)).1.h.cap = none
    ∧ (pumpRun vision ⟨h, t0⟩
        ([f1, f2, f3] ++ ws ++ [o])).1.h.consecutive_failures = 0
    ∧ (pumpRun vision ⟨h, t0⟩ ([f1, f2, f3] ++ ws ++ [o])).1.h.cap = some true
    ∧ (∀ (s2 : PumpState) (e2 : PumpEnv) (fr2 : Frame),
        s2.h.cap = some true → e2.readRaises = false → e2.readFrame = some fr2 →
        (pumpStep vision s2 e2).1.h.consecutive_failures = 0) := by
  have run3 : pumpRun vision ⟨h, t0⟩ [f1, f2, f3]
      = (⟨{ h with consecutive_failures := 3, cap := none }, t0⟩,
         [Event.released, Event.yieldLost]) := by
    simp only [pumpRun]
    rw [pumpStep_read_fail_low vision ⟨h, t0⟩ f1 hcap h1r h1f
      (by simp [hfail, hmax])]
    rw [pumpStep_read_fail_low vision _ f2 (by simp [hcap]) h2r h2f
      (by simp [hfail, hmax])]
    rw [pumpStep_read_fail_trip vision _ f3 (by simp [hcap]) h3r h3f
      (by simp [hfail, hmax])]
    simp [hfail]
  have run2cap : (pumpRun vision ⟨h, t0⟩ [f1, f2]).1.h.cap = some true := by
    simp only [pumpRun]
    rw [pumpStep_read_fail_low vision ⟨h, t0⟩ f1 hcap h1r h1f
      (by simp [hfail, hmax])]
    rw [pumpStep_read_fail_low vision _ f2 (by simp [hcap]) h2r h2f
      (by simp [hfail, hmax])]
    simp [hcap]
  have runw : pumpRun vision
        ⟨{ h with consecutive_failures := 3, cap := none }, t0⟩ ws
      = (⟨{ h with consecutive_failures := 3, cap := none }, t0⟩,
         ws.map (fun _ => Event.yieldConnecting)) := by
    refine pumpRun_waiting vision ws _ (by simp) ?_
    intro w hw
    simpa using hws w hw
  have run35 : pumpRun vision ⟨h, t0⟩ ([f1, f2, f3] ++ ws)
      = (⟨{ h with consecutive_failures := 3, cap := none }, t0⟩,
         [Event.released, Event.yieldLost]
           ++ ws.map (fun _ => Event.yieldConnecting)) := by
    rw [pumpRun_append vision [f1, f2, f3] ws ⟨h, t0⟩, run3, runw]
  have oc := pumpStep_reconnect_read_ok vision
    ⟨{ h with consecutive_failures := 3, cap := none }, t0⟩ o fr
    (by simp) (by simpa using how) hoo hor hof hoe
  have runAll : pumpRun vision ⟨h, t0⟩ ([f1, f2, f3] ++ ws ++ [o])
      = ((pumpStep vision
            ⟨{ h with consecutive_failures := 3, cap := none }, t0⟩ o).1,
         ([Event.released, Event.yieldLost]
            ++ ws.map (fun _ => Event.yieldConnecting))
           ++ (pumpStep vision
            ⟨{ h with consecutive_failures := 3, cap := none }, t0⟩ o).2) := by
    rw [pumpRun_append vision ([f1, f2, f3] ++ ws) [o] ⟨h, t0⟩, run35]
    simp [pumpRun]
  refine ⟨?_, run2cap, ?_, ?_, ?_, ?_, ?_, ?_⟩
  · rw [runAll]
    simp [oc.1]
  · rw [run3]
  · rw [run3]
  · rw [run35]
  · rw [runAll]
    exact oc.2.1
  · rw [runAll]
    exact oc.2.2.1
  · intro s2 e2 fr2 hc he2 hf2
    exact pumpStep_read_ok_resets vision s2 e2 fr2 hc he2 hf2

theorem pump_threshold_release_amended_witness :
    (pumpRun (fun _ _ => Except.ok [])
        { h := { rtsp_url := "u".toList, jpeg_quality := 80, timeout := 10,
                  retry_interval := 5, cap := some true,
                  consecutive_failures := 0, max_failures := 3,
                  motion_detector := MotionDetector.init "medium" 500 },
          last_reconnect_attempt := 0 }
        ([⟨1, false, false, none, true⟩, ⟨1, false, false, none, true⟩,
           ⟨1, false, false, none, true⟩]
          ++ [⟨3, false, false, none, true⟩]
          ++ [⟨6, true, false, some ⟨[1], 0, false⟩, true⟩])).2
      = [Event.released, Event.yieldLost]
        ++ [(⟨3, false, false, none, true⟩ : PumpEnv)].map
            (fun _ => Event.yieldConnecting)
        ++ [Event.openAttempt true, Event.yieldFrame]
    ∧ (pumpRun (fun _ _ => Except.ok [])
        { h := { rtsp_url := "u".toList, jpeg_quality := 80, timeout := 10,
                  retry_interval := 5, cap := some true,
                  consecutive_failures := 0, max_failures := 3,
                  motion_detector := MotionDetector.init "medium" 500 },
          last_reconnect_attempt := 0 }
        ([⟨1, false, false, none, true⟩, ⟨1, false, false, none, true⟩,
           ⟨1, false, false, none, true⟩]
          ++ [⟨3, false, false, none, true⟩]
          ++ [⟨6, true, false, some ⟨[1], 0, false⟩, true⟩])).1.h.consecutive_failures
      = 0 := by
  have h := pump_threshold_release_amended (fun _ _ => Except.ok [])
    { rtsp_url := "u".toList, jpeg_quality := 80, timeout := 10,
      retry_interval := 5, cap := some true, consecutive_failures := 0,
      max_failures := 3, motion_detector := MotionDetector.init "medium" 500 }
    0 ⟨1, false, false, none, true⟩ ⟨1, false, false, none, true⟩
    ⟨1, false, false, none, true⟩ [⟨3, false, false, none, true⟩]
    ⟨6, true, false, some ⟨[1], 0, false⟩, true⟩ ⟨[1], 0, false⟩
    rfl rfl rfl rfl rfl rfl rfl rfl rfl
    (by
      intro w hw
      simp only [List.mem_singleton] at hw
      subst hw
      norm_num)
    (by norm_num) rfl rfl rfl rfl
  exact ⟨h.1, h.2.2.2.2.2.1⟩

/-! ## Lemmas about the motion-hold debounce -/

theorem runDetect_flag_false_stays (visionT : BgModel → Frame → List Nat) :
    ∀ (L : List (ℚ × Frame)) (md : MotionDetector), md.enabled = true →
      md.motion_detected = false →
      (∀ p ∈ L, (p.2).data ≠ []) →
      (∀ (m : BgModel) (p : ℚ × Frame), p ∈ L →
        (visionT m p.2).filter (fun a => decide (md.min_contour_area < a)) = []) →
      (runDetect visionT md L).1.motion_detected = false := by
  intro L
  induction L with
  | nil => intro md _ hm _ _; exact hm
  | cons p rest ih =>
    intro md hen hm hv hnoq
    obtain ⟨t, f⟩ := p
    rw [runDetect_cons]
    have hqe : (visionT md.bg_subtractor f).filter
        (fun a => decide (md.min_contour_area < a)) = [] :=
      hnoq md.bg_subtractor (t, f) (by simp)
    have hvf : f.data ≠ [] := hv (t, f) (by simp)
    have step := detect_motion_step_noqual md visionT f t hen hvf hqe
    refine ih _ step.2.2.1 ?_ ?_ ?_
    · rw [step.1, hm]
      split <;> rfl
    · intro q hq
      exact hv q (by simp [hq])
    · intro m q hq
      rw [step.2.2.2.2.1]
      exact hnoq m q (by simp [hq])

theorem runDetect_hold (visionT : BgModel → Frame → List Nat) :
    ∀ (M : List (ℚ × Frame)) (tj : ℚ) (fj : Frame) (md : MotionDetector),
      md.enabled = true → md.motion_detected = true →
      (∀ p ∈ M ++ [(tj, fj)], (p.2).data ≠ []) →
      (∀ (m : BgModel) (p : ℚ × Frame), p ∈ M ++ [(tj, fj)] →
        (visionT m p.2).filter (fun a => decide (md.min_contour_area < a)) = []) →
      (∀ p ∈ M, p.1 ≤ tj) →
      ((runDetect visionT md (M ++ [(tj, fj)])).1.motion_detected = true
        ↔ tj - md.last_motion_time ≤ md.motion_timeout) := by
  intro M
  induction M with
  | nil =>
    intro tj fj md hen hm hv hnoq _
    simp only [List.nil_append] at hv hnoq ⊢
    rw [runDetect_cons]
    have hqe : (visionT md.bg_subtractor fj).filter
        (fun a => decide (md.min_contour_area < a)) = [] :=
      hnoq md.bg_subtractor (tj, fj) (by simp)
    have hvf : fj.data ≠ [] := hv (tj, fj) (by simp)
    have step := detect_motion_step_noqual md visionT fj tj hen hvf hqe
    simp only [runDetect]
    rw [step.1, hm]
    by_cases ht : md.motion_timeout < tj - md.last_motion_time
    · rw [if_pos ht]
      constructor
      · intro habs
        exact absurd habs (by simp)
      · intro hle
        exact absurd ht (not_lt.mpr hle)
    · rw [if_neg ht]
      simp [not_lt.mp ht]
  | cons p rest ih =>
    intro tj fj md hen hm hv hnoq hmono
    obtain ⟨t, f⟩ := p
    simp only [List.cons_append] at hv hnoq ⊢
    rw [runDetect_cons]
    have hqe : (visionT md.bg_subtractor f).filter
        (fun a => decide (md.min_contour_area < a)) = [] :=
      hnoq md.bg_subtractor (t, f) (by simp)
    have hvf : f.data ≠ [] := hv (t, f) (by simp)
    have step := detect_motion_step_noqual md visionT f t hen hvf hqe
    by_cases ht : md.motion_timeout < t - md.last_motion_time
    · have hflag : (md.detect_motion (fun m fr => Except.ok (visionT m fr))
          (some f) t).1.motion_detected = false := by
        rw [step.1, if_pos ht]
      have hfin := runDetect_flag_false_stays visionT (rest ++ [(tj, fj)]) _
        step.2.2.1 hflag (fun q hq => hv q (by simp [hq]))
        (by
          intro m q hq
          rw [step.2.2.2.2.1]
          exact hnoq m q (by simp [hq]))
      rw [hfin]
      have htj : md.motion_timeout < tj - md.last_motion_time := by
        have hle : t ≤ tj := hmono (t, f) (by simp)
        linarith
      constructor
      · intro habs
        exact absurd habs (by simp)
      · intro hle
        exact absurd htj (not_lt.mpr hle)
    · have hflag : (md.detect_motion (fun m fr => Except.ok (visionT m fr))
          (some f) t).1.motion_detected = true := by
        rw [step.1, if_neg ht, hm]
      have hih := ih tj fj _ step.2.2.1 hflag
        (fun q hq => hv q (by simp [hq]))
        (by
          intro m q hq
          rw [step.2.2.2.2.1]
          exact hnoq m q (by simp [hq]))
        (fun q hq => hmono q (by simp [hq]))
      rw [hih, step.2.1, step.2.2.2.1]

/-! ## Claim theorem: motion-hold debounce -/

/-- C8: with the detector enabled and valid frames, a process call whose
vision pipeline reports a qualifying contour (area above
`min_contour_area`) returns `motionActive = true` immediately; and over any
subsequent calls in which no qualifying contour occurs, with non-decreasing
timestamps, the externally visible flag after the call at time `tj` is
`true` exactly when `tj` is within `motion_timeout` (the 2.0-second hold)
of the qualifying call at `ti`, and `false` once more than the hold has
elapsed.  (The call at `tj` is the last element of the run; outputs are
causal, so this quantifies over every subsequent call.) -/
theorem motion_hold_debounce (visionT : BgModel → Frame → List Nat)
    (md : MotionDetector) (ti tj : ℚ) (fi fj : Frame) (M : List (ℚ × Frame))
    (hen : md.enabled = true)
    (hv : ∀ p ∈ (ti, fi) :: M ++ [(tj, fj)], (p.2).data ≠ [])
    (hmono : ∀ p ∈ M, p.1 ≤ tj)
    (hq : (visionT md.bg_subtractor fi).filter
        (fun a => decide (md.min_contour_area < a)) ≠ [])
    (hnoq : ∀ (m : BgModel) (p : ℚ × Frame), p ∈ M ++ [(tj, fj)] →
      (visionT m p.2).filter (fun a => decide (md.min_contour_area < a)) = []) :
    (md.detect_motion (fun m fr => Except.ok (visionT m fr)) (some fi) ti).2.2
      = true
    ∧ ((runDetect visionT md ((ti, fi) :: M ++ [(tj, fj)])).1.motion_detected
          = true
        ↔ tj - ti ≤ md.motion_timeout)
    ∧ (MotionDetector.is_motion_detected
          (runDetect visionT md ((ti, fi) :: M ++ [(tj, fj)])).1 = true
        ↔ tj - ti ≤ md.motion_timeout) := by
  have hvi : fi.data ≠ [] := hv (ti, fi) (by simp)
  have step := detect_motion_step_qual md visionT fi ti hen hvi hq
  have hold := runDetect_hold visionT M tj fj _ step.2.2.1 step.1
    (fun q hqq => hv q (by simp [hqq]))
    (by
      intro m q hqq
      rw [step.2.2.2.2.1]
      exact hnoq m q hqq)
    hmono
  have h2 : (runDetect visionT md ((ti, fi) :: M ++ [(tj, fj)])).1.motion_detected
      = true ↔ tj - ti ≤ md.motion_timeout := by
    simp only [List.cons_append]
    rw [runDetect_cons]
    rw [hold, step.2.1, step.2.2.2.1]
  exact ⟨step.2.2.2.2.2, h2, by
    simpa only [MotionDetector.is_motion_detected] using h2⟩

theorem motion_hold_debounce_witness :
    (((MotionDetector.init "medium" 500).set_enabled true).detect_motion
        (fun m fr => Except.ok ((fun (_ : BgModel) (f : Frame) =>
          if f.data = [1] then [600] else []) m fr))
        (some ⟨[1], 0, false⟩) 0).2.2 = true
    ∧ (runDetect
        (fun (_ : BgModel) (f : Frame) => if f.data = [1] then [600] else [])
        ((MotionDetector.init "medium" 500).set_enabled true)
        ((0, ⟨[1], 0, false⟩) :: [((1 : ℚ), (⟨[2], 0, false⟩ : Frame))]
          ++ [((3 : ℚ), (⟨[2], 0, false⟩ : Frame))])).1.motion_detected
      = false := by
  have h := motion_hold_debounce
    (fun (_ : BgModel) (f : Frame) => if f.data = [1] then [600] else [])
    ((MotionDetector.init "medium" 500).set_enabled true)
    0 3 ⟨[1], 0, false⟩ ⟨[2], 0, false⟩
    [((1 : ℚ), (⟨[2], 0, false⟩ : Frame))]
    (by decide)
    (by intro p hp; fin_cases hp <;> decide)
    (by intro p hp; fin_cases hp; norm_num)
    (by decide)
    (by
      intro m p hp
      fin_cases hp <;> simp)
  refine ⟨h.1, ?_⟩
  have hiff := h.2.1
  rcases Bool.eq_false_or_eq_true
      ((runDetect
        (fun (_ : BgModel) (f : Frame) => if f.data = [1] then [600] else [])
        ((MotionDetector.init "medium" 500).set_enabled true)
        ((0, ⟨[1], 0, false⟩) :: [((1 : ℚ), (⟨[2], 0, false⟩ : Frame))]
          ++ [((3 : ℚ), (⟨[2], 0, false⟩ : Frame))])).1.motion_detected)
      with hb | hb
  · refine absurd (hiff.mp hb) ?_
    have hnum : ¬((3 : ℚ) - 0
        ≤ ((MotionDetector.init "medium" 500).set_enabled true).motion_timeout) := by
      simp only [MotionDetector.init, MotionDetector.set_enabled, if_pos]
      norm_num
    exact hnum
  · exact hb

end RtspViewer


